import Mathlib

/-!
Shallow embedding of the anymessage API core (src/api/src/models/team.model.ts
and src/api/src/controllers/integration.controller/save.post.ts).

JavaScript conventions are made explicit:
  * a possibly-undefined value is an `Option`;
  * JS truthiness of a string is "not undefined and not empty";
  * JS truthiness of a number is "not undefined and not 0";
  * property access on `null`/`undefined` raises a TypeError;
  * `x.split(sep)` is `String.splitOn`, and `arr[i]` is `List.get?`.

The persistence gateway (massive.js `Database`) is modelled as an explicit
record of tables plus a fault switch: when `fault` is set every store call
rejects with that message, which is how an arbitrary underlying store error
is injected.  `ModelError` (models/index.ts, outside the reviewed sources)
is modelled from the spec as an error wrapper with a distinguished
"not initialized" value.
-/

namespace AnyMessage

/-- JS truthiness of a possibly-undefined string value. -/
def jsTruthyStr : Option String → Bool
  | none => false
  | some s => s ≠ ""

/-- JS truthiness of a possibly-undefined number value. -/
def jsTruthyNat : Option Nat → Bool
  | none => false
  | some n => n ≠ 0

/-- JS string coercion of a possibly-undefined string (``String(undefined)`` is "undefined"),
as performed by `RegExp.test` on a non-string argument. -/
def jsCoerceStr : Option String → String
  | none => "undefined"
  | some s => s

/-- Does `sep` occur at the start of `s`? -/
def startsWithChars (sep : List Char) : List Char → Bool
  | [] => sep.isEmpty
  | c :: cs =>
    match sep with
    | [] => true
    | p :: ps => p = c && startsWithChars ps cs

/-- Does `sep` occur contiguously anywhere in `s`? -/
def containsSeq (sep : List Char) : List Char → Bool
  | [] => sep.isEmpty
  | c :: cs => startsWithChars sep (c :: cs) || containsSeq sep cs

/-- Fuel-driven splitter behind `jsSplit`; `fuel ≥ s.length` makes it total on
a non-empty separator.  At a separator occurrence it closes the current chunk
and drops the separator; otherwise the head character joins the first chunk
of the remainder's split. -/
def jsSplitFuel (sep : List Char) : Nat → List Char → List (List Char)
  | _, [] => [[]]
  | 0, s => [s]
  | fuel + 1, c :: cs =>
    if startsWithChars sep (c :: cs) then
      [] :: jsSplitFuel sep fuel ((c :: cs).drop sep.length)
    else
      match jsSplitFuel sep fuel cs with
      | [] => [[c]]
      | chunk :: rest => (c :: chunk) :: rest

/-- JavaScript `s.split(sep)` for a non-empty string separator: the list of
chunks between non-overlapping occurrences of `sep`, scanned left to right;
always at least one element. -/
def jsSplit (s sep : String) : List String :=
  (jsSplitFuel sep.data s.data.length s.data).map String.mk

/-- Errors that can surface from the embedded code.  `ModelError` is modelled
from the spec: it wraps an underlying error (`wrap`), carries a message
(`msg`), or is the distinguished `ModelError.NO_INIT` usage error (`noInit`). -/
inductive JsErr where
  | tyErr : String → JsErr
  | fault : String → JsErr
  | wrap : JsErr → JsErr
  | msg : String → JsErr
  | noInit : JsErr
deriving DecidableEq, Repr

/-- One row of the `teams` table. -/
structure TeamRow where
  id : Nat
  subdomain : String
  customer_id : Option String
deriving DecidableEq, Repr

/-- One row of the `users` table (the columns the join query reads). -/
structure UserRow where
  email : String
  team_id : Option Nat
deriving DecidableEq, Repr

/-- The persistence gateway.  `seq` is the next primary key the store assigns,
`fault` injects a store error into every call, `insertNull` makes `insert`
resolve with no row (the anomaly guarded against in `create`), and
`writeCount` counts the writes issued. -/
structure Database where
  teams : List TeamRow
  users : List UserRow
  seq : Nat
  fault : Option String
  insertNull : Bool
  writeCount : Nat
deriving DecidableEq, Repr

/-- `db.teams.findOne({subdomain})`: first row with that exact subdomain, or null. -/
def dbFindOneBySubdomain (db : Database) (subdomain : String) :
    Except JsErr (Option TeamRow) :=
  match db.fault with
  | some m => .error (.fault m)
  | none => .ok (db.teams.find? (fun r => r.subdomain = subdomain))

/-- `db.teams.findOne({id})`: first row with that id, or null. -/
def dbFindOneById (db : Database) (id : Option Nat) :
    Except JsErr (Option TeamRow) :=
  match db.fault with
  | some m => .error (.fault m)
  | none => .ok (db.teams.find? (fun r => some r.id = id))

/-- `db.teams.insert({subdomain})`: appends a fresh row with a store-assigned id
and returns it (or no row when the store misbehaves). -/
def dbInsert (db : Database) (subdomain : String) :
    Except JsErr (Database × Option TeamRow) :=
  match db.fault with
  | some m => .error (.fault m)
  | none =>
    if db.insertNull then
      .ok ({ db with writeCount := db.writeCount + 1 }, none)
    else
      let row : TeamRow := { id := db.seq, subdomain := subdomain, customer_id := none }
      let db' := { db with teams := db.teams ++ [row], seq := db.seq + 1 }
      .ok ({ db' with writeCount := db.writeCount + 1 }, some row)

/-- `db.teams.update({id}, fields)`: applies `f` to every row with that id and
returns the updated rows. -/
def dbUpdate (db : Database) (id : Option Nat) (f : TeamRow → TeamRow) :
    Except JsErr (Database × List TeamRow) :=
  match db.fault with
  | some m => .error (.fault m)
  | none =>
    let db' := { db with teams := db.teams.map (fun (r : TeamRow) => if some r.id = id then f r else r) }
    .ok ({ db' with writeCount := db.writeCount + 1 },
         (db.teams.filter (fun r => some r.id = id)).map f)

/-! ## HTTP response model -/

/-- A response body: empty, or the JSON object `\x7b error: msg \x7d`. -/
inductive Body where
  | empty : Body
  | json : String → Body
deriving DecidableEq, Repr

/-- A write to the response: a status code and a body. -/
structure Resp where
  status : Nat
  body : Body
deriving DecidableEq, Repr

/-! ## verifyTeamName (team.model.ts lines 175-192) -/

/-- One character of the class `[0-9a-z-]`. -/
def isSubChar (c : Char) : Bool :=
  ('0' ≤ c && c ≤ '9') || ('a' ≤ c && c ≤ 'z') || c = '-'

/-- The test `/^[0-9a-z\-]+$/.test s`: non-empty and every character in class. -/
def matchesSubdomainRe (s : String) : Bool :=
  !s.data.isEmpty && s.data.all isSubChar

/-- Middleware `verifyTeamName`: given the request body field `newURL`
(undefined when absent), returns the list of response writes issued, in
order, and the number of times `next()` was invoked.  Mirrors the source:
the two checks are each evaluated unconditionally, each failure does
`res.status(400); res.json(...)`, and `next()` runs only if both passed. -/
def verifyTeamName (newURL : Option String) : List Resp × Nat :=
  let w1 : List Resp :=
    if jsTruthyStr newURL then [] else [⟨400, .json "newURL is required"⟩]
  let w2 : List Resp :=
    if matchesSubdomainRe (jsCoerceStr newURL) then []
    else [⟨400, .json "newURL can only conatain lowercase letters, numbers and dashes"⟩]
  let passed := jsTruthyStr newURL && matchesSubdomainRe (jsCoerceStr newURL)
  (w1 ++ w2, if passed then 1 else 0)

/-! ## postSave (save.post.ts lines 11-22) -/

/-- The fields the catch block of `postSave` reads off a thrown error. -/
structure ErrObj where
  status : Option Nat
  message : Option String
deriving DecidableEq, Repr

/-- Handler `postSave`.  The try-block body (IntegrationModel construction,
`init`, `save` — an external collaborator) is abstracted as its outcome
`run`.  On success `res.sendStatus(200)` is a bare status-only response; on
failure the status is `e.status || 500` and the body is the JSON error
object exactly when `e.status && e.message` is truthy. -/
def postSave (run : Except ErrObj Unit) : Resp :=
  match run with
  | .ok _ => ⟨200, .empty⟩
  | .error e =>
    let st : Nat := if jsTruthyNat e.status then e.status.getD 500 else 500
    if jsTruthyNat e.status && jsTruthyStr e.message then
      ⟨st, .json (e.message.getD "")⟩
    else
      ⟨st, .empty⟩

/-! ## TeamModel accessor (team.model.ts lines 18-158) -/

/-- The in-memory state of a `TeamModel` accessor object (the `db` reference
is passed to each method separately). Undefined fields are `none`. -/
structure TeamModel where
  id : Option Nat
  initialized : Bool
  subdomain : Option String
  customer_id : Option String
deriving DecidableEq, Repr

/-- The constructor `new TeamModel(db, id?)`. -/
def TeamModel.new (id : Option Nat) : TeamModel :=
  { id := id, initialized := false, subdomain := none, customer_id := none }

/-- Static `TeamModel.available(db, subdomain)`: true iff findOne found nothing;
any store fault is rethrown wrapped in a `ModelError`. -/
def TeamModel.available (db : Database) (subdomain : String) : Except JsErr Bool :=
  match dbFindOneBySubdomain db subdomain with
  | .error e => .error (.wrap e)
  | .ok found => .ok (match found with | some _ => false | none => true)

/-- Static `TeamModel.findTeamByURL(db, url)`: takes the label before the first
"." as the subdomain and looks the team up by it. -/
def TeamModel.findTeamByURL (db : Database) (url : String) :
    Except JsErr (Option TeamRow) :=
  let subdomain := (jsSplit url ".").headD ""
  match dbFindOneBySubdomain db subdomain with
  | .error e => .error (.wrap e)
  | .ok found => .ok found

/-- `init()`: loads the row by `this.id`.  When findOne resolves `null`, the
access `team.subdomain` raises a TypeError inside the try, so the catch
rethrows it wrapped.  When a row is found, a truthy subdomain is cached
(together with `customer_id`); a falsy one only logs a warning.  Either way a
found row leads to `initialized := true` and `this.id` being returned.
Result: the console warnings emitted, and the updated accessor with the
returned id. -/
def TeamModel.init (db : Database) (t : TeamModel) :
    List String × Except JsErr (TeamModel × Option Nat) :=
  match dbFindOneById db t.id with
  | .error e => ([], .error (.wrap e))
  | .ok none =>
    ([], .error (.wrap (.tyErr "Cannot read properties of null (reading subdomain)")))
  | .ok (some team) =>
    if team.subdomain ≠ "" then
      let t' := { t with subdomain := some team.subdomain, customer_id := team.customer_id }
      ([], .ok ({ t' with initialized := true }, t.id))
    else
      (["Cannot find team with passed \"id\""],
       .ok ({ t with initialized := true }, t.id))

/-- `create(newURL)`: inserts a row; on a row coming back, stores the new id
and marks initialized; on no row, the `ModelError` thrown in the try block is
caught by the same catch and wrapped again.  Returns the mutated store. -/
def TeamModel.create (db : Database) (t : TeamModel) (newURL : String) :
    Database × Except JsErr (TeamModel × Nat) :=
  match dbInsert db newURL with
  | .error e => (db, .error (.wrap e))
  | .ok (db', none) =>
    (db', .error (.wrap (.msg "Team was not created. Please verify model integrity")))
  | .ok (db', some newTeam) =>
    (db', .ok ({ t with id := some newTeam.id, initialized := true }, newTeam.id))

/-- `getSubdomain()`: the cached subdomain, or the NO_INIT usage error. -/
def TeamModel.getSubdomain (t : TeamModel) : Except JsErr (Option String) :=
  if t.initialized then .ok t.subdomain else .error .noInit

/-- `getCustomerID()`: the cached customer id, or the NO_INIT usage error. -/
def TeamModel.getCustomerID (t : TeamModel) : Except JsErr (Option String) :=
  if t.initialized then .ok t.customer_id else .error .noInit

/-- `setSubdomain(newURL)`: when initialized, mutates the field and issues one
update-by-id; otherwise the NO_INIT usage error, with the store untouched. -/
def TeamModel.setSubdomain (db : Database) (t : TeamModel) (newURL : String) :
    Database × Except JsErr (TeamModel × List TeamRow) :=
  if t.initialized then
    match dbUpdate db t.id (fun r => { r with subdomain := newURL }) with
    | .error e => (db, .error (.wrap e))
    | .ok (db', rows) => (db', .ok ({ t with subdomain := some newURL }, rows))
  else
    (db, .error .noInit)

/-- `setCustomerID(customer_id)`: when initialized, mutates the field and
issues one update-by-id; otherwise the NO_INIT usage error, store untouched. -/
def TeamModel.setCustomerID (db : Database) (t : TeamModel) (customer_id : String) :
    Database × Except JsErr (TeamModel × List TeamRow) :=
  if t.initialized then
    match dbUpdate db t.id (fun r => { r with customer_id := some customer_id }) with
    | .error e => (db, .error (.wrap e))
    | .ok (db', rows) => (db', .ok ({ t with customer_id := some customer_id }, rows))
  else
    (db, .error .noInit)

/-- `hasActiveSubscription()`: delegates the cached customer id to the billing
collaborator `stripe`, or the NO_INIT usage error. -/
def TeamModel.hasActiveSubscription (stripe : Option String → Bool) (t : TeamModel) :
    Except JsErr Bool :=
  if t.initialized then .ok (stripe t.customer_id) else .error .noInit

/-! ## verifySubdomain (team.model.ts lines 206-236) -/

/-- The observable outcome of the tenant-resolution middleware. -/
inductive MwOutcome where
  | nextNoTeam : MwOutcome
  | nextWithTeam : Nat → String → MwOutcome
  | respond : Nat → MwOutcome
  | thrown : JsErr → MwOutcome
deriving DecidableEq, Repr

/-- Outcome of a middleware run together with the number of store queries issued. -/
structure MwResult where
  outcome : MwOutcome
  queries : Nat
deriving DecidableEq, Repr

/-- The raw join query: team ids of teams whose subdomain matches and whose
joined user row's email matches. -/
def joinQuery (db : Database) (subdomain email : String) : List Nat :=
  (db.users.filter (fun u => u.email = email)).flatMap
    (fun u => ((db.teams.filter
      (fun t => u.team_id = some t.id && t.subdomain = subdomain)).map TeamRow.id))

/-- `db.query(sql, [subdomain, email])` through the fault switch. -/
def dbJoinQuery (db : Database) (subdomain email : String) :
    Except JsErr (List Nat) :=
  match db.fault with
  | some m => .error (.fault m)
  | none => .ok (joinQuery db subdomain email)

/-- Middleware `verifySubdomain`.  The extraction
`origin.split("://")[1].split(".")[0]` runs outside the try/catch: an absent
origin, or one with no "://" (so that `[1]` is undefined), raises an
uncaught TypeError and nothing else happens.  Otherwise a falsy or "www"
label skips straight to `next()`; a real label runs the join query, answers
403 on an empty result set, attaches the team and calls `next()` on a hit,
and answers 500 when the store faults. -/
def verifySubdomain (db : Database) (origin : Option String) (email : String) :
    MwResult :=
  match origin with
  | none => ⟨.thrown (.tyErr "Cannot read properties of undefined (reading split)"), 0⟩
  | some o =>
    match (jsSplit o "://").get? 1 with
    | none => ⟨.thrown (.tyErr "Cannot read properties of undefined (reading split)"), 0⟩
    | some host =>
      let subdomain := (jsSplit host ".").headD ""
      if subdomain ≠ "" && subdomain ≠ "www" then
        match dbJoinQuery db subdomain email with
        | .error _ => ⟨.respond 500, 1⟩
        | .ok [] => ⟨.respond 403, 1⟩
        | .ok (id :: _) => ⟨.nextWithTeam id subdomain, 1⟩
      else
        ⟨.nextNoTeam, 0⟩

/-! ## Concrete fixtures used by counterexamples and witnesses -/

/-- A persisted team with subdomain "acme". -/
def rowAcme : TeamRow := ⟨1, "acme", none⟩

/-- A team row whose subdomain column is the empty (falsy) string. -/
def rowBlank : TeamRow := ⟨1, "", none⟩

/-- A store with no rows at all. -/
def dbEmpty : Database := ⟨[], [], 1, none, false, 0⟩

/-- A store holding only `rowAcme`. -/
def dbAcme : Database := ⟨[rowAcme], [], 2, none, false, 0⟩

/-- A store holding only `rowBlank`. -/
def dbBlank : Database := ⟨[rowBlank], [], 2, none, false, 0⟩

/-- A store whose every call faults with "boom". -/
def dbFault : Database := ⟨[], [], 1, some "boom", false, 0⟩

/-- A user on team 1. -/
def userAda : UserRow := ⟨"ada@example.com", some 1⟩

/-- A store with the acme team and one member. -/
def dbJoin : Database := ⟨[rowAcme], [userAda], 2, none, false, 0⟩

/-! ## Helper lemmas -/

/-- Splitting a sequence that contains no occurrence of the (arbitrary-fuel)
separator yields the single original chunk. -/
theorem jsSplitFuel_eq_single (sep : List Char) (fuel : Nat) (s : List Char)
    (h : containsSeq sep s = false) : jsSplitFuel sep fuel s = [s] := by
  induction fuel generalizing s with
  | zero => cases s <;> rfl
  | succ n ih =>
    cases s with
    | nil => rfl
    | cons c cs =>
      simp only [containsSeq, Bool.or_eq_false_iff] at h
      simp [jsSplitFuel, h.1, ih cs h.2]

/-- JS `o.split(sep)` of a string not containing the separator is `[o]`. -/
theorem jsSplit_eq_single (o sep : String) (h : containsSeq sep.data o.data = false) :
    jsSplit o sep = [o] := by
  unfold jsSplit
  rw [jsSplitFuel_eq_single sep.data o.data.length o.data h]
  rfl

/-! ## Claim theorems -/

/-- Claim C4: for every request body, `verifyTeamName` invokes `next()` exactly
once and writes no response when `newURL` is a non-empty string every
character of which lies in `[0-9a-z-]` (i.e. it matches the anchored regex in
full); and for every string containing a character outside that class it
responds 400 with an error message and never invokes `next()`. -/
theorem verifyTeamName_charset_spec (s : String) :
    (s ≠ "" → s.data.all isSubChar = true → verifyTeamName (some s) = ([], 1)) ∧
    ((∃ c ∈ s.data, isSubChar c = false) →
      (verifyTeamName (some s)).1 =
        [⟨400, Body.json "newURL can only conatain lowercase letters, numbers and dashes"⟩] ∧
      (verifyTeamName (some s)).2 = 0) := by
  constructor
  · intro hne hall
    have hd : s.data ≠ [] := fun h => hne (String.ext h)
    simp [verifyTeamName, jsTruthyStr, jsCoerceStr, matchesSubdomainRe, hne, hall, hd]
  · rintro ⟨c, hc, hbad⟩
    have hd : s.data ≠ [] := List.ne_nil_of_mem hc
    have hne : s ≠ "" := by
      intro h
      subst h
      simp at hc
    have hall : s.data.all isSubChar = false := by
      simp only [List.all_eq_false]
      exact ⟨c, hc, by simp [hbad]⟩
    simp [verifyTeamName, jsTruthyStr, jsCoerceStr, matchesSubdomainRe, hne, hall]

/-- Witness for C4: "acme-1" passes straight through; "Acme!" is rejected. -/
theorem verifyTeamName_charset_spec_witness :
    verifyTeamName (some "acme-1") = ([], 1) ∧ (verifyTeamName (some "Acme!")).2 = 0 :=
  ⟨(verifyTeamName_charset_spec "acme-1").1 (by decide) (by decide),
   ((verifyTeamName_charset_spec "Acme!").2 ⟨'A', by decide, by decide⟩).2⟩

/-- Claim C5: the presence check and the charset check of `verifyTeamName` are
both evaluated on every call; when both fail for the same input, two 400
responses are written in order — "required" first, the charset message second
— so the last write (the one that overwrites prior response state) is the
charset one, and `next()` is never invoked. -/
theorem verifyTeamName_double_write (u : Option String)
    (h1 : jsTruthyStr u = false)
    (h2 : matchesSubdomainRe (jsCoerceStr u) = false) :
    (verifyTeamName u).1 =
      [⟨400, Body.json "newURL is required"⟩,
       ⟨400, Body.json "newURL can only conatain lowercase letters, numbers and dashes"⟩] ∧
    (verifyTeamName u).1.getLast? =
      some ⟨400, Body.json "newURL can only conatain lowercase letters, numbers and dashes"⟩ ∧
    (verifyTeamName u).2 = 0 := by
  simp [verifyTeamName, h1, h2]

/-- Witness for C5: the empty string fails both checks and gets both writes. -/
theorem verifyTeamName_double_write_witness :
    (verifyTeamName (some "")).1 =
      [⟨400, Body.json "newURL is required"⟩,
       ⟨400, Body.json "newURL can only conatain lowercase letters, numbers and dashes"⟩] ∧
    (verifyTeamName (some "")).1.getLast? =
      some ⟨400, Body.json "newURL can only conatain lowercase letters, numbers and dashes"⟩ ∧
    (verifyTeamName (some "")).2 = 0 :=
  verifyTeamName_double_write (some "") (by decide) (by decide)

/-- Claim C2: `postSave` answers a bare empty 200 on success; on a thrown
error the status is the attached status when one is attached (and truthy) and
500 otherwise, and the body is the JSON error object exactly when both a
(truthy) status and a (truthy) message are attached, empty in every other
case. -/
theorem postSave_error_protocol :
    postSave (.ok ()) = ⟨200, Body.empty⟩ ∧
    (∀ (e : ErrObj) (s : Nat) (m : String),
      e.status = some s → s ≠ 0 → e.message = some m → m ≠ "" →
      postSave (.error e) = ⟨s, Body.json m⟩) ∧
    (∀ e : ErrObj, e.status = none → postSave (.error e) = ⟨500, Body.empty⟩) ∧
    (∀ e : ErrObj, e.status = some 0 → postSave (.error e) = ⟨500, Body.empty⟩) ∧
    (∀ (e : ErrObj) (s : Nat), e.status = some s → s ≠ 0 → e.message = none →
      postSave (.error e) = ⟨s, Body.empty⟩) ∧
    (∀ (e : ErrObj) (s : Nat), e.status = some s → s ≠ 0 → e.message = some "" →
      postSave (.error e) = ⟨s, Body.empty⟩) := by
  refine ⟨rfl, ?_, ?_, ?_, ?_, ?_⟩
  · intro e s m hs hs0 hm hm0
    simp [postSave, jsTruthyNat, jsTruthyStr, hs, hs0, hm, hm0]
  · intro e hs
    simp [postSave, jsTruthyNat, hs]
  · intro e hs
    simp [postSave, jsTruthyNat, hs]
  · intro e s hs hs0 hm
    simp [postSave, jsTruthyNat, jsTruthyStr, hs, hs0, hm]
  · intro e s hs hs0 hm
    simp [postSave, jsTruthyNat, jsTruthyStr, hs, hs0, hm]

/-- Witness for C2: the spec scenario — a store error carrying status 409 and
message "duplicate" produces a 409 with body `\x7b error: "duplicate" \x7d`. -/
theorem postSave_error_protocol_witness :
    postSave (.error ⟨some 409, some "duplicate"⟩) = ⟨409, Body.json "duplicate"⟩ :=
  postSave_error_protocol.2.1 ⟨some 409, some "duplicate"⟩ 409 "duplicate" rfl
    (by decide) rfl (by decide)

/-- Claim C8: on a freshly constructed accessor (neither `init` nor `create`
has run) every getter and setter fails with the NO_INIT usage error, the
store is returned untouched, and no write is issued. -/
theorem uninitialized_accessor_guard (oid : Option Nat) (db : Database)
    (v w : String) (stripe : Option String → Bool) :
    TeamModel.getSubdomain (TeamModel.new oid) = .error .noInit ∧
    TeamModel.getCustomerID (TeamModel.new oid) = .error .noInit ∧
    TeamModel.setSubdomain db (TeamModel.new oid) v = (db, .error .noInit) ∧
    TeamModel.setCustomerID db (TeamModel.new oid) w = (db, .error .noInit) ∧
    TeamModel.hasActiveSubscription stripe (TeamModel.new oid) = .error .noInit ∧
    (TeamModel.setSubdomain db (TeamModel.new oid) v).1.writeCount = db.writeCount ∧
    (TeamModel.setCustomerID db (TeamModel.new oid) w).1.writeCount = db.writeCount :=
  ⟨rfl, rfl, rfl, rfl, rfl, rfl, rfl⟩

/-- Claim C7: `available(db, subdomain)` answers `false` exactly when a team
row with that exact subdomain exists, `true` exactly when none does, and
rethrows a store fault wrapped in a `ModelError`. -/
theorem available_spec (db : Database) (s : String) :
    (db.fault = none →
      ((TeamModel.available db s = .ok false) ↔ ∃ r ∈ db.teams, r.subdomain = s) ∧
      ((TeamModel.available db s = .ok true) ↔ ∀ r ∈ db.teams, r.subdomain ≠ s)) ∧
    (∀ m, db.fault = some m → TeamModel.available db s = .error (.wrap (.fault m))) := by
  constructor
  · intro hf
    have hav : TeamModel.available db s =
        .ok (match db.teams.find? (fun r => r.subdomain = s) with
             | some _ => false
             | none => true) := by
      unfold TeamModel.available dbFindOneBySubdomain
      rw [hf]
    cases hfind : db.teams.find? (fun r => r.subdomain = s) with
    | none =>
      have hnone := List.find?_eq_none.mp hfind
      simp only [decide_eq_true_eq] at hnone
      rw [hav, hfind]
      constructor
      · constructor
        · intro h
          exact absurd h (by simp)
        · rintro ⟨r, hr, hsub⟩
          exact absurd hsub (hnone r hr)
      · constructor
        · intro _
          exact hnone
        · intro _
          rfl
    | some r =>
      have hmem := List.mem_of_find?_eq_some hfind
      have hsub := List.find?_some hfind
      simp only [decide_eq_true_eq] at hsub
      rw [hav, hfind]
      constructor
      · constructor
        · intro _
          exact ⟨r, hmem, hsub⟩
        · intro _
          rfl
      · constructor
        · intro h
          exact absurd h (by simp)
        · intro hall
          exact absurd hsub (hall r hmem)
  · intro m hm
    unfold TeamModel.available dbFindOneBySubdomain
    rw [hm]

/-- Witness for C7: "acme" is taken in `dbAcme`, "zzz" is free, and a faulting
store surfaces as a wrapped data-access error. -/
theorem available_spec_witness :
    TeamModel.available dbAcme "acme" = .ok false ∧
    TeamModel.available dbAcme "zzz" = .ok true ∧
    TeamModel.available dbFault "acme" = .error (.wrap (.fault "boom")) :=
  ⟨((available_spec dbAcme "acme").1 rfl).1.mpr ⟨rowAcme, by decide, rfl⟩,
   ((available_spec dbAcme "zzz").1 rfl).2.mpr (by decide),
   (available_spec dbFault "acme").2 "boom" rfl⟩

/-- Claim C9: when the origin host's leading label is empty or "www",
`verifySubdomain` issues no store query and calls `next()` without attaching
any tenant context. -/
theorem verifySubdomain_skip (db : Database) (o host s email : String)
    (hhost : (jsSplit o "://").get? 1 = some host)
    (hs : (jsSplit host ".").headD "" = s)
    (hws : s = "" ∨ s = "www") :
    verifySubdomain db (some o) email = ⟨.nextNoTeam, 0⟩ := by
  have hhost' : (jsSplit o "://")[1]? = some host := by simpa using hhost
  have hs' : (jsSplit host ".").head?.getD "" = s := by simpa using hs
  rcases hws with h | h <;> subst h <;> simp [verifySubdomain, hhost', hs']

/-- Witness for C9: origin "https://www.example.com" skips resolution. -/
theorem verifySubdomain_skip_witness :
    verifySubdomain dbEmpty (some "https://www.example.com") "ada@example.com" =
      ⟨.nextNoTeam, 0⟩ :=
  verifySubdomain_skip dbEmpty "https://www.example.com" "www.example.com" "www"
    "ada@example.com" (by decide) (by decide) (Or.inr rfl)

/-- Claim C10: an absent Origin header, or one without "://", makes the
extraction on the first line of `verifySubdomain` (outside its try/catch)
throw an uncaught TypeError: no query is issued, no response is written and
`next()` is never reached. -/
theorem verifySubdomain_malformed_origin (db : Database) (email : String) :
    (verifySubdomain db none email =
      ⟨.thrown (.tyErr "Cannot read properties of undefined (reading split)"), 0⟩) ∧
    (∀ o : String, containsSeq "://".data o.data = false →
      verifySubdomain db (some o) email =
        ⟨.thrown (.tyErr "Cannot read properties of undefined (reading split)"), 0⟩) := by
  refine ⟨rfl, ?_⟩
  intro o h
  simp [verifySubdomain, jsSplit_eq_single o "://" h]

/-- Witness for C10: no header, and the separator-free origin "example.com". -/
theorem verifySubdomain_malformed_origin_witness :
    verifySubdomain dbEmpty none "ada@example.com" =
      ⟨.thrown (.tyErr "Cannot read properties of undefined (reading split)"), 0⟩ ∧
    verifySubdomain dbEmpty (some "example.com") "ada@example.com" =
      ⟨.thrown (.tyErr "Cannot read properties of undefined (reading split)"), 0⟩ :=
  ⟨(verifySubdomain_malformed_origin dbEmpty "ada@example.com").1,
   (verifySubdomain_malformed_origin dbEmpty "ada@example.com").2 "example.com" (by decide)⟩

/-- Claim C3: for a non-empty origin label other than "www", an empty join
result set makes `verifySubdomain` answer a body-less 403 after its single
query, never reaching `next()`; a non-empty result set attaches the first
row's id with the label and calls `next()`. -/
theorem verifySubdomain_authz (db : Database) (o host s email : String)
    (hhost : (jsSplit o "://").get? 1 = some host)
    (hs : (jsSplit host ".").headD "" = s)
    (hne : s ≠ "") (hwww : s ≠ "www") (hf : db.fault = none) :
    (joinQuery db s email = [] →
      verifySubdomain db (some o) email = ⟨.respond 403, 1⟩) ∧
    (∀ id rest, joinQuery db s email = id :: rest →
      verifySubdomain db (some o) email = ⟨.nextWithTeam id s, 1⟩) := by
  have hhost' : (jsSplit o "://")[1]? = some host := by simpa using hhost
  have hs' : (jsSplit host ".").head?.getD "" = s := by simpa using hs
  constructor
  · intro hq
    simp [verifySubdomain, hhost', hs', hne, hwww, dbJoinQuery, hf, hq]
  · intro id rest hq
    simp [verifySubdomain, hhost', hs', hne, hwww, dbJoinQuery, hf, hq]

/-- Witness for C3: in `dbJoin`, an email with no member row gets the 403, and
the member "ada@example.com" of team 1 gets the tenant context attached. -/
theorem verifySubdomain_authz_witness :
    verifySubdomain dbJoin (some "https://acme.example.com") "nobody@example.com" =
      ⟨.respond 403, 1⟩ ∧
    verifySubdomain dbJoin (some "https://acme.example.com") "ada@example.com" =
      ⟨.nextWithTeam 1 "acme", 1⟩ :=
  ⟨(verifySubdomain_authz dbJoin "https://acme.example.com" "acme.example.com" "acme"
      "nobody@example.com" (by decide) (by decide) (by decide) (by decide) rfl).1 (by decide),
   (verifySubdomain_authz dbJoin "https://acme.example.com" "acme.example.com" "acme"
      "ada@example.com" (by decide) (by decide) (by decide) (by decide) rfl).2 1 [] (by decide)⟩

/-- Claim C6: in any store where "acme" is a fresh subdomain, `create "acme"`
succeeds with a new id, and resolving host "acme.example.com" through
`findTeamByURL` against the resulting store finds a row carrying that id. -/
theorem create_then_findTeamByURL_roundtrip (db : Database) (t : TeamModel)
    (hf : db.fault = none) (hn : db.insertNull = false)
    (hfresh : ∀ r ∈ db.teams, r.subdomain ≠ "acme") :
    ∃ (db' : Database) (t' : TeamModel) (nid : Nat),
      TeamModel.create db t "acme" = (db', .ok (t', nid)) ∧
      ∃ row : TeamRow, TeamModel.findTeamByURL db' "acme.example.com" = .ok (some row) ∧
        row.id = nid := by
  have hnone : db.teams.find? (fun r => r.subdomain = "acme") = none := by
    rw [List.find?_eq_none]
    intro r hr
    simp [hfresh r hr]
  have hsub : (jsSplit "acme.example.com" ".").head?.getD "" = "acme" := by decide
  unfold TeamModel.create dbInsert
  rw [hf, hn]
  simp only [Bool.false_eq_true, if_false]
  refine ⟨_, _, _, rfl, ⟨db.seq, "acme", none⟩, ?_, rfl⟩
  simp +decide [TeamModel.findTeamByURL, dbFindOneBySubdomain, hsub, hf,
    List.find?_append, hnone]

/-- Witness for C6: the round trip through an empty store. -/
theorem create_then_findTeamByURL_roundtrip_witness :
    ∃ (db' : Database) (t' : TeamModel) (nid : Nat),
      TeamModel.create dbEmpty (TeamModel.new none) "acme" = (db', .ok (t', nid)) ∧
      ∃ row : TeamRow, TeamModel.findTeamByURL db' "acme.example.com" = .ok (some row) ∧
        row.id = nid :=
  create_then_findTeamByURL_roundtrip dbEmpty (TeamModel.new none) rfl rfl (by decide)

/-- Claim C1 refuted at a concrete input: against the empty store, with id 1,
`findOne` resolves no row, yet `init` neither logs a warning nor returns the
id — the null-row property access throws, surfacing as a wrapped error. -/
theorem init_missing_row_cex :
    dbFindOneById dbEmpty (TeamModel.new (some 1)).id = .ok none ∧
    (TeamModel.init dbEmpty (TeamModel.new (some 1))).1 = [] ∧
    (TeamModel.init dbEmpty (TeamModel.new (some 1))).2 =
      .error (.wrap (.tyErr "Cannot read properties of null (reading subdomain)")) :=
  ⟨rfl, rfl, rfl⟩

/-- Claim C1 as amended: when `findOne` resolves no row, `init` throws a
`ModelError` wrapping the TypeError raised by reading `subdomain` off the
null row — it logs nothing, does not mark the accessor ready and returns
nothing.  The warn-but-still-ready behaviour happens only when a row is
found whose `subdomain` is falsy: then `init` logs the warning, still marks
the accessor initialized, caches nothing and returns the id unchanged. -/
theorem init_missing_row_amended (db : Database) (t : TeamModel) :
    (dbFindOneById db t.id = .ok none →
      TeamModel.init db t =
        ([], .error (.wrap (.tyErr "Cannot read properties of null (reading subdomain)")))) ∧
    (∀ row, dbFindOneById db t.id = .ok (some row) → row.subdomain = "" →
      TeamModel.init db t =
        (["Cannot find team with passed \"id\""],
         .ok ({ t with initialized := true }, t.id))) := by
  constructor
  · intro h
    unfold TeamModel.init
    rw [h]
  · intro row h hrow
    unfold TeamModel.init
    rw [h]
    simp [hrow]

/-- Witness for the amended C1: the empty store makes `init` throw; a store
whose only row has an empty subdomain gets the warning and still ends up
initialized with the id returned unchanged. -/
theorem init_missing_row_amended_witness :
    TeamModel.init dbEmpty (TeamModel.new (some 1)) =
      ([], .error (.wrap (.tyErr "Cannot read properties of null (reading subdomain)"))) ∧
    TeamModel.init dbBlank (TeamModel.new (some 1)) =
      (["Cannot find team with passed \"id\""],
       .ok ({ TeamModel.new (some 1) with initialized := true }, some 1)) :=
  ⟨(init_missing_row_amended dbEmpty (TeamModel.new (some 1))).1 rfl,
   (init_missing_row_amended dbBlank (TeamModel.new (some 1))).2 rowBlank rfl rfl⟩

end AnyMessage
